import Mathlib

/-!
# Verification of the SOLID-GO repository

Shallow embedding of the Go sources:

* the CRUD-over-HTTP user service (`UserRepository`, `UserService`,
  `UserHandler` from the unnamed main file), modelled as state-passing
  functions over an explicit database state;
* the strategy-pattern examples (`DiscountCalculator`/`CalculateFinalPrice`
  from OCP/main.go, `Speaker`/`DescribeAnimal` and `Notifier`/
  `NotificationService` from DIP/main.go).

The PostgreSQL backing store is modelled with standard SQL semantics for
the exact queries appearing in the source: `INSERT ... RETURNING id`
assigns the next serial identifier; `QueryRow ... Scan` yields
`sql.ErrNoRows` when the query matches no row; `DELETE` executed through
`ExecContext` reports no error when zero rows match; an unreachable or
rejecting store yields an error distinct from `sql.ErrNoRows` on every
operation.  Go's `error` results are modelled with `Except`/`Option`;
`fmt` output is modelled as returned strings.
-/

/-- The user model (struct `User`): integer id plus name and email. -/
structure User where
  id : Int
  name : String
  email : String
deriving DecidableEq, Repr

/-- Errors a repository operation can produce: `noRows` models
`sql.ErrNoRows` (the query matched no row), `storage` models every other
database failure (store unreachable, operation rejected). -/
inductive SqlErr where
  | noRows
  | storage
deriving DecidableEq, Repr

/-- State of the backing store: the `users` table as a list of
(id, name, email) rows, the next value of the serial id sequence, and
whether the store is reachable (when false, every operation fails with a
`storage` error). -/
structure DbState where
  rows : List (Int × String × String)
  nextId : Int
  reachable : Bool
deriving DecidableEq, Repr

/-- The freshly initialised database: empty table, serial sequence at 1,
store reachable. -/
def initialDb : DbState := ⟨[], 1, true⟩

/-- `SELECT ... WHERE id=$1`: the first row of the table with the given id. -/
def findRow (rows : List (Int × String × String)) (id : Int) :
    Option (Int × String × String) :=
  rows.find? (fun r => r.1 == id)

/-- `UserRepository.Create`: `INSERT INTO users (name, email) VALUES ($1, $2)
RETURNING id`, scanned into `user.ID`.  The store assigns the next serial id
to the new row; the argument's `id` field is never read. -/
def UserRepository.Create (s : DbState) (user : User) :
    Except SqlErr User × DbState :=
  if s.reachable then
    (Except.ok { user with id := s.nextId },
     { s with rows := s.rows ++ [(s.nextId, user.name, user.email)],
              nextId := s.nextId + 1 })
  else
    (Except.error SqlErr.storage, s)

/-- `UserRepository.Get`: `SELECT id, name, email FROM users WHERE id=$1`,
scanned into a fresh `User`; `Scan` fails with `sql.ErrNoRows` when no row
matches. -/
def UserRepository.Get (s : DbState) (id : Int) :
    Except SqlErr User × DbState :=
  if s.reachable then
    match findRow s.rows id with
    | some r => (Except.ok ⟨r.1, r.2.1, r.2.2⟩, s)
    | none => (Except.error SqlErr.noRows, s)
  else
    (Except.error SqlErr.storage, s)

/-- `UserRepository.Update`: `UPDATE users SET name=$1, email=$2 WHERE id=$3
RETURNING id, name, email`, scanned back into `user`.  When no row has the
given id the `RETURNING` clause yields no row and `Scan` fails with
`sql.ErrNoRows`; otherwise the matching row's mutable fields are replaced
and the updated row is returned. -/
def UserRepository.Update (s : DbState) (id : Int) (user : User) :
    Except SqlErr User × DbState :=
  if s.reachable then
    match findRow s.rows id with
    | some _ =>
        let newRows :=
          s.rows.map (fun r => if r.1 == id then (r.1, user.name, user.email) else r)
        (Except.ok ⟨id, user.name, user.email⟩, { s with rows := newRows })
    | none => (Except.error SqlErr.noRows, s)
  else
    (Except.error SqlErr.storage, s)

/-- `UserRepository.Delete`: `DELETE FROM users WHERE id=$1` through
`ExecContext`; the result's row count is discarded, so the operation
succeeds (returns a `none` error) whether or not a row with the given id
exists. -/
def UserRepository.Delete (s : DbState) (id : Int) :
    Option SqlErr × DbState :=
  if s.reachable then
    (none, { s with rows := s.rows.filter (fun r => !(r.1 == id)) })
  else
    (some SqlErr.storage, s)

/-- `UserService.CreateUser`: builds `User{Name: name, Email: email}`
(zero-valued id) and delegates to the repository. -/
def UserService.CreateUser (s : DbState) (name email : String) :
    Except SqlErr User × DbState :=
  UserRepository.Create s { id := 0, name := name, email := email }

/-- `UserService.GetUser`: delegates to the repository. -/
def UserService.GetUser (s : DbState) (id : Int) :
    Except SqlErr User × DbState :=
  UserRepository.Get s id

/-- `UserService.UpdateUser`: builds `User{Name: name, Email: email}`
(zero-valued id) and delegates to the repository. -/
def UserService.UpdateUser (s : DbState) (id : Int) (name email : String) :
    Except SqlErr User × DbState :=
  UserRepository.Update s id { id := 0, name := name, email := email }

/-- `UserService.DeleteUser`: delegates to the repository. -/
def UserService.DeleteUser (s : DbState) (id : Int) :
    Option SqlErr × DbState :=
  UserRepository.Delete s id

/-- Digit accumulation for `atoi`: consumes decimal digits, failing on any
non-digit character. -/
def parseDigits : List Char → Nat → Option Nat
  | [], acc => some acc
  | c :: cs, acc =>
      if c.isDigit then parseDigits cs (acc * 10 + (c.toNat - 48)) else none

/-- Model of Go `strconv.Atoi` as used on the `id` query parameter: an
optional sign followed by at least one decimal digit; empty strings, bare
signs and any non-digit character are errors (`none`).  Overflow is not
modelled (identifiers in this development are small). -/
def atoi (s : String) : Option Int :=
  match s.data with
  | [] => none
  | ['+'] => none
  | ['-'] => none
  | '+' :: cs => (parseDigits cs 0).map Int.ofNat
  | '-' :: cs => (parseDigits cs 0).map (fun n => -Int.ofNat n)
  | cs => (parseDigits cs 0).map Int.ofNat

/-- The transport responses a handler can produce: a 200 with a JSON body
(`Encode` with no explicit status), 201 Created with a body, 204 NoContent,
and the `http.Error` responses 400, 404 and 500 with their message. -/
inductive HttpResponse where
  | ok (body : User)
  | created (body : User)
  | noContent
  | badRequest (msg : String)
  | notFound (msg : String)
  | internalError (msg : String)
deriving DecidableEq, Repr

/-- `UserHandler.CreateUser`: JSON-decode the body (modelled by its result:
`none` is a decode failure) or fail 400 "Invalid input"; call the service
with the decoded name and email; on error respond 500 "Failed to create
user", on success respond 201 with the created user. -/
def UserHandler.CreateUser (s : DbState) (body : Option User) :
    HttpResponse × DbState :=
  match body with
  | none => (HttpResponse.badRequest "Invalid input", s)
  | some user =>
      match UserService.CreateUser s user.name user.email with
      | (Except.ok createdUser, s1) => (HttpResponse.created createdUser, s1)
      | (Except.error _, s1) =>
          (HttpResponse.internalError "Failed to create user", s1)

/-- `UserHandler.GetUser`: parse the `id` query parameter with
`strconv.Atoi` or fail 400 "Invalid ID"; call the service; on any error
respond 404 "User not found", on success respond 200 with the user. -/
def UserHandler.GetUser (s : DbState) (idParam : String) :
    HttpResponse × DbState :=
  match atoi idParam with
  | none => (HttpResponse.badRequest "Invalid ID", s)
  | some id =>
      match UserService.GetUser s id with
      | (Except.ok user, s1) => (HttpResponse.ok user, s1)
      | (Except.error _, s1) => (HttpResponse.notFound "User not found", s1)

/-- `UserHandler.UpdateUser`: parse the `id` query parameter or fail 400
"Invalid ID"; JSON-decode the body or fail 400 "Invalid input"; call the
service with the query id and the decoded name and email; on any error
respond 404 "Failed to update user", on success respond 200 with the
updated user. -/
def UserHandler.UpdateUser (s : DbState) (idParam : String)
    (body : Option User) : HttpResponse × DbState :=
  match atoi idParam with
  | none => (HttpResponse.badRequest "Invalid ID", s)
  | some id =>
      match body with
      | none => (HttpResponse.badRequest "Invalid input", s)
      | some user =>
          match UserService.UpdateUser s id user.name user.email with
          | (Except.ok updatedUser, s1) => (HttpResponse.ok updatedUser, s1)
          | (Except.error _, s1) =>
              (HttpResponse.notFound "Failed to update user", s1)

/-- `UserHandler.DeleteUser`: parse the `id` query parameter or fail 400
"Invalid ID"; call the service; on any error respond 404 "Failed to delete
user", on success respond 204 NoContent. -/
def UserHandler.DeleteUser (s : DbState) (idParam : String) :
    HttpResponse × DbState :=
  match atoi idParam with
  | none => (HttpResponse.badRequest "Invalid ID", s)
  | some id =>
      match UserService.DeleteUser s id with
      | (none, s1) => (HttpResponse.noContent, s1)
      | (some _, s1) => (HttpResponse.notFound "Failed to delete user", s1)

/-!
## OCP/main.go: discount strategies

Go interfaces are embedded as structures whose fields are the interface's
methods; a concrete implementation is a value of that structure.  `float64`
prices are modelled as rationals (the claims under verification concern
only delegation, not floating-point rounding).
-/

/-- Interface `DiscountCalculator`: one method `Calculate(price)`. -/
structure DiscountCalculator where
  Calculate : ℚ → ℚ

/-- `RegularCustomerDiscount.Calculate`: no discount applied. -/
def RegularCustomerDiscount : DiscountCalculator :=
  ⟨fun price => price⟩

/-- `LoyalCustomerDiscount.Calculate`: `price * 0.90`. -/
def LoyalCustomerDiscount : DiscountCalculator :=
  ⟨fun price => price * (90 / 100)⟩

/-- `VIPCustomerDiscount.Calculate`: `price * 0.80`. -/
def VIPCustomerDiscount : DiscountCalculator :=
  ⟨fun price => price * (80 / 100)⟩

/-- `NewCustomerDiscount.Calculate`: `price * 0.95`. -/
def NewCustomerDiscount : DiscountCalculator :=
  ⟨fun price => price * (95 / 100)⟩

/-- `CalculateFinalPrice`: calls the supplied strategy's `Calculate` on the
price and returns its result. -/
def CalculateFinalPrice (price : ℚ) (discountCalculator : DiscountCalculator) : ℚ :=
  discountCalculator.Calculate price

/-!
## DIP/main.go: speakers and notifiers
-/

/-- Interface `Speaker`: one method `Speak()` returning a string. -/
structure Speaker where
  Speak : String

/-- `Dog.Speak` returns "Woof!". -/
def Dog : Speaker := ⟨"Woof!"⟩

/-- `Cat.Speak` returns "Meow!". -/
def Cat : Speaker := ⟨"Meow!"⟩

/-- `Parrot.Speak` returns "Squawk!". -/
def Parrot : Speaker := ⟨"Squawk!"⟩

/-- `DescribeAnimal`: prints `"The animal says:"` followed by the speaker's
`Speak()` result; the printed line is the return value of the model. -/
def DescribeAnimal (speaker : Speaker) : String :=
  "The animal says: " ++ speaker.Speak

/-- Interface `Notifier`: one method `Send(message)` returning the console
output it prints and the Go `error` (modelled as `Option String`, `none`
being `nil`). -/
structure Notifier where
  Send : String → List String × Option String

/-- `EmailNotifier.Send`: prints the message and returns `nil`. -/
def EmailNotifier : Notifier :=
  ⟨fun message => (["Sending email with message: " ++ message], none)⟩

/-- `SMSNotifier.Send`: prints the message and returns `nil`. -/
def SMSNotifier : Notifier :=
  ⟨fun message => (["Sending SMS with message: " ++ message], none)⟩

/-- `NotificationService`: holds the injected `Notifier`. -/
structure NotificationService where
  notifier : Notifier

/-- `NewNotificationService`. -/
def NewNotificationService (notifier : Notifier) : NotificationService :=
  ⟨notifier⟩

/-- `NotificationService.Notify`: calls `Send`; on a non-nil error prints
the failure line, otherwise the success line.  The model returns all
console output in order. -/
def NotificationService.Notify (n : NotificationService) (message : String) :
    List String :=
  let r := n.notifier.Send message
  match r.2 with
  | some e => r.1 ++ ["Failed to send notification: " ++ e]
  | none => r.1 ++ ["Notification sent successfully!"]

/-!
## Helper lemmas about `findRow`
-/

/-- A table with no row of the given id yields no `findRow` result. -/
theorem findRow_eq_none_of_fresh (rows : List (Int × String × String)) (id : Int)
    (h : ∀ r ∈ rows, r.1 ≠ id) : findRow rows id = none := by
  unfold findRow
  rw [List.find?_eq_none]
  intro x hx
  simpa using h x hx

/-- Looking up a freshly appended row finds exactly that row. -/
theorem findRow_append_fresh (rows : List (Int × String × String)) (id : Int)
    (n e : String) (h : ∀ r ∈ rows, r.1 ≠ id) :
    findRow (rows ++ [(id, n, e)]) id = some (id, n, e) := by
  have h0 : findRow rows id = none := findRow_eq_none_of_fresh rows id h
  unfold findRow at h0 ⊢
  rw [List.find?_append, h0]
  simp

/-- `findRow` commutes with replacing the mutable fields of the rows whose
id matches: the replacement does not change any row's id. -/
theorem findRow_map_replace (rows : List (Int × String × String)) (id : Int)
    (n e : String) :
    findRow (rows.map (fun r => if r.1 == id then (r.1, n, e) else r)) id =
      (findRow rows id).map (fun r => if r.1 == id then (r.1, n, e) else r) := by
  have hpf : ((fun r : Int × String × String => r.1 == id) ∘
      (fun r => if r.1 == id then (r.1, n, e) else r)) =
      (fun r : Int × String × String => r.1 == id) := by
    funext r
    by_cases h : r.1 = id <;> simp [h]
  unfold findRow
  rw [List.find?_map, hpf]

/-- A successful repository update always returns a record carrying the
requested id. -/
theorem update_ok_id (s : DbState) (id : Int) (u v : User) (s1 : DbState)
    (h : UserRepository.Update s id u = (Except.ok v, s1)) : v.id = id := by
  unfold UserRepository.Update at h
  cases hrb : s.reachable <;> rw [hrb] at h
  · simp at h
  · cases hf : findRow s.rows id <;> rw [hf] at h <;> simp at h
    rw [← h.1]

/-!
## Claims
-/

/-- C1 counterexample: deleting a never-created identifier (5 in the fresh
database), and deleting an identifier a second time after a successful
first delete, both return success (`none` error) instead of failing with
NotFound as the claim states. -/
theorem C1_second_delete_succeeds :
    (UserRepository.Delete ⟨[(1, "A", "a@x")], 2, true⟩ 1).1 = none ∧
    (UserRepository.Delete
      (UserRepository.Delete ⟨[(1, "A", "a@x")], 2, true⟩ 1).2 1).1 = none ∧
    (UserRepository.Delete initialDb 5).1 = none := by
  decide

/-- C1 (amended): with the store reachable, for every identifier with no
row in the table (never created, or already deleted), get and update fail
with NotFound (`sql.ErrNoRows`), while delete succeeds without error —
so a second delete of the same identifier does not crash, but it succeeds
rather than failing with NotFound. -/
theorem C1_missing_id_behaviour (s : DbState) (id : Int) (u : User)
    (hr : s.reachable = true) (habs : findRow s.rows id = none) :
    (UserRepository.Get s id).1 = Except.error SqlErr.noRows ∧
    (UserRepository.Update s id u).1 = Except.error SqlErr.noRows ∧
    (UserRepository.Delete s id).1 = none := by
  unfold UserRepository.Get UserRepository.Update UserRepository.Delete
  rw [hr, habs]
  simp

/-- C1 witness: the amended statement evaluated in the fresh empty
database at identifier 1. -/
theorem C1_missing_id_behaviour_witness :
    (UserRepository.Get initialDb 1).1 = Except.error SqlErr.noRows ∧
    (UserRepository.Update initialDb 1 ⟨0, "B", "b@x"⟩).1 =
      Except.error SqlErr.noRows ∧
    (UserRepository.Delete initialDb 1).1 = none :=
  C1_missing_id_behaviour initialDb 1 ⟨0, "B", "b@x"⟩ rfl rfl

/-- C2 counterexample: with the backing store unreachable, the get
endpoint's service call fails with a storage error (not `sql.ErrNoRows`),
yet the handler answers the same 404 "User not found" it uses for missing
identifiers — not a 500-equivalent internal error — so StorageError is
not surfaced distinctly from NotFound. -/
theorem C2_storage_error_mapped_to_404 :
    (UserService.GetUser ⟨[], 1, false⟩ 1).1 = Except.error SqlErr.storage ∧
    (UserHandler.GetUser ⟨[], 1, false⟩ "1").1 =
      HttpResponse.notFound "User not found" ∧
    (UserService.GetUser ⟨[], 1, true⟩ 1).1 = Except.error SqlErr.noRows ∧
    (UserHandler.GetUser ⟨[], 1, true⟩ "1").1 =
      HttpResponse.notFound "User not found" :=
  ⟨rfl, rfl, rfl, rfl⟩

/-- C2 (amended): no Store- or Service-level failure is swallowed — every
Service failure produces an error response with a generic message at the
Handler boundary.  The create handler maps every failure to the
500-equivalent "Failed to create user"; the get, update and delete
handlers map every failure — NotFound and StorageError alike — to a
404-equivalent response, so on those endpoints StorageError is surfaced
with the same signal as NotFound rather than as a 500-equivalent error. -/
theorem C2_every_failure_surfaced (s : DbState) (p : String) (i : Int)
    (u : User) (e : SqlErr) (hp : atoi p = some i) :
    ((UserService.CreateUser s u.name u.email).1 = Except.error e →
      (UserHandler.CreateUser s (some u)).1 =
        HttpResponse.internalError "Failed to create user") ∧
    ((UserService.GetUser s i).1 = Except.error e →
      (UserHandler.GetUser s p).1 = HttpResponse.notFound "User not found") ∧
    ((UserService.UpdateUser s i u.name u.email).1 = Except.error e →
      (UserHandler.UpdateUser s p (some u)).1 =
        HttpResponse.notFound "Failed to update user") ∧
    ((UserService.DeleteUser s i).1 = some e →
      (UserHandler.DeleteUser s p).1 =
        HttpResponse.notFound "Failed to delete user") := by
  refine ⟨?_, ?_, ?_, ?_⟩
  · intro h
    unfold UserHandler.CreateUser
    rcases hsvc : UserService.CreateUser s u.name u.email with ⟨r, s1⟩
    rw [hsvc] at h
    cases r <;> simp_all
  · intro h
    unfold UserHandler.GetUser
    rw [hp]
    rcases hsvc : UserService.GetUser s i with ⟨r, s1⟩
    rw [hsvc] at h
    cases r <;> simp_all
  · intro h
    unfold UserHandler.UpdateUser
    rw [hp]
    rcases hsvc : UserService.UpdateUser s i u.name u.email with ⟨r, s1⟩
    rw [hsvc] at h
    cases r <;> simp_all
  · intro h
    unfold UserHandler.DeleteUser
    rw [hp]
    rcases hsvc : UserService.DeleteUser s i with ⟨r, s1⟩
    rw [hsvc] at h
    cases r <;> simp_all

/-- C2 witness: the amended statement evaluated with an unreachable store
on the get endpoint at identifier 1. -/
theorem C2_every_failure_surfaced_witness :
    (UserHandler.GetUser ⟨[], 1, false⟩ "1").1 =
      HttpResponse.notFound "User not found" :=
  (C2_every_failure_surfaced ⟨[], 1, false⟩ "1" 1 ⟨0, "A", "a@x"⟩
    SqlErr.storage rfl).2.1 rfl

/-- C3: for every valid create input, with the store reachable, the serial
sequence positive and its next value fresh (no existing row carries it —
the database serial invariant), create returns a record with the
store-assigned non-zero (non-null) identifier and the supplied name and
email, and a subsequent get with that identifier returns an equal
record. -/
theorem C3_create_then_get_roundtrip (s : DbState) (name email : String)
    (hr : s.reachable = true) (hpos : 1 ≤ s.nextId)
    (hfresh : ∀ r ∈ s.rows, r.1 ≠ s.nextId) :
    UserService.CreateUser s name email =
      (Except.ok ⟨s.nextId, name, email⟩,
       ⟨s.rows ++ [(s.nextId, name, email)], s.nextId + 1, true⟩) ∧
    s.nextId ≠ 0 ∧
    (UserService.GetUser
      ⟨s.rows ++ [(s.nextId, name, email)], s.nextId + 1, true⟩ s.nextId).1 =
      Except.ok ⟨s.nextId, name, email⟩ := by
  obtain ⟨rows, nid, rb⟩ := s
  simp only at hr hpos hfresh
  subst hr
  refine ⟨?_, by show nid ≠ 0; omega, ?_⟩
  · unfold UserService.CreateUser UserRepository.Create
    simp
  · unfold UserService.GetUser UserRepository.Get
    rw [findRow_append_fresh rows nid name email hfresh]
    simp

/-- C3 witness: the round trip evaluated from the fresh empty database
with the spec's end-to-end input name "A", email "a@x". -/
theorem C3_create_then_get_roundtrip_witness :
    UserService.CreateUser initialDb "A" "a@x" =
      (Except.ok ⟨1, "A", "a@x"⟩, ⟨[(1, "A", "a@x")], 2, true⟩) ∧
    (1 : Int) ≠ 0 ∧
    (UserService.GetUser ⟨[(1, "A", "a@x")], 2, true⟩ 1).1 =
      Except.ok ⟨1, "A", "a@x"⟩ :=
  C3_create_then_get_roundtrip initialDb "A" "a@x" rfl (by decide)
    (by intro r hr; simp [initialDb] at hr)

/-- C4: for every identifier with a row in the table and the store
reachable, update replaces both mutable fields with the supplied values
and keeps the identifier: it returns the record with the requested id and
the new name and email, and a subsequent get returns exactly that record
— never a merge with the prior field values. -/
theorem C4_update_replaces_all_fields (s : DbState) (id : Int) (u : User)
    (row : Int × String × String)
    (hr : s.reachable = true) (hfind : findRow s.rows id = some row) :
    (UserRepository.Update s id u).1 = Except.ok ⟨id, u.name, u.email⟩ ∧
    (UserRepository.Get (UserRepository.Update s id u).2 id).1 =
      Except.ok ⟨id, u.name, u.email⟩ := by
  have hid : row.1 = id := by
    have := List.find?_some (by simpa [findRow] using hfind)
    simpa using this
  obtain ⟨rows, nid, rb⟩ := s
  simp only at hr hfind
  subst hr
  have hmap := findRow_map_replace rows id u.name u.email
  rw [hfind] at hmap
  simp [hid] at hmap
  simp [UserRepository.Update, UserRepository.Get, hfind, hmap, hid]

/-- C4 witness: the update-then-get sequence evaluated on the one-row
database at identifier 1 with the spec's end-to-end input name "B",
email "b@x". -/
theorem C4_update_replaces_all_fields_witness :
    (UserRepository.Update ⟨[(1, "A", "a@x")], 2, true⟩ 1 ⟨0, "B", "b@x"⟩).1 =
      Except.ok ⟨1, "B", "b@x"⟩ ∧
    (UserRepository.Get
      (UserRepository.Update ⟨[(1, "A", "a@x")], 2, true⟩ 1 ⟨0, "B", "b@x"⟩).2
      1).1 = Except.ok ⟨1, "B", "b@x"⟩ :=
  C4_update_replaces_all_fields ⟨[(1, "A", "a@x")], 2, true⟩ 1 ⟨0, "B", "b@x"⟩
    (1, "A", "a@x") rfl rfl

/-- C5: every Service operation constructs a record from its primitive
arguments (create and update build a record with zero-valued id and the
given name and email), delegates to the corresponding Store operation and
returns its result — error included — unchanged as a strict equality, so
the Service adds no logic. -/
theorem C5_service_is_pure_delegation (s : DbState) (id : Int)
    (name email : String) :
    UserService.CreateUser s name email =
      UserRepository.Create s ⟨0, name, email⟩ ∧
    UserService.GetUser s id = UserRepository.Get s id ∧
    UserService.UpdateUser s id name email =
      UserRepository.Update s id ⟨0, name, email⟩ ∧
    UserService.DeleteUser s id = UserRepository.Delete s id :=
  ⟨rfl, rfl, rfl, rfl⟩

/-- C6: a request whose id query parameter does not parse, or whose body
fails to decode, is answered 400 BadRequest immediately with the database
state unchanged (the Service is never invoked); and a successful request
is answered with the appropriate success signal: 201 Created for create,
200 with the record for get and update, 204 NoContent for delete. -/
theorem C6_handler_badrequest_and_success (s s1 : DbState) (p : String)
    (i : Int) (body u cu : User) :
    (atoi p = none →
      UserHandler.GetUser s p = (HttpResponse.badRequest "Invalid ID", s) ∧
      UserHandler.UpdateUser s p (some body) =
        (HttpResponse.badRequest "Invalid ID", s) ∧
      UserHandler.DeleteUser s p = (HttpResponse.badRequest "Invalid ID", s)) ∧
    (UserHandler.CreateUser s none = (HttpResponse.badRequest "Invalid input", s)) ∧
    (atoi p = some i →
      UserHandler.UpdateUser s p none =
        (HttpResponse.badRequest "Invalid input", s)) ∧
    (UserService.CreateUser s body.name body.email = (Except.ok cu, s1) →
      UserHandler.CreateUser s (some body) = (HttpResponse.created cu, s1)) ∧
    (atoi p = some i → UserService.GetUser s i = (Except.ok u, s1) →
      UserHandler.GetUser s p = (HttpResponse.ok u, s1)) ∧
    (atoi p = some i →
      UserService.UpdateUser s i body.name body.email = (Except.ok u, s1) →
      UserHandler.UpdateUser s p (some body) = (HttpResponse.ok u, s1)) ∧
    (atoi p = some i → UserService.DeleteUser s i = (none, s1) →
      UserHandler.DeleteUser s p = (HttpResponse.noContent, s1)) := by
  refine ⟨?_, rfl, ?_, ?_, ?_, ?_, ?_⟩
  · intro hnone
    refine ⟨?_, ?_, ?_⟩ <;>
      simp [UserHandler.GetUser, UserHandler.UpdateUser,
        UserHandler.DeleteUser, hnone]
  · intro hp
    simp [UserHandler.UpdateUser, hp]
  · intro h
    simp [UserHandler.CreateUser, h]
  · intro hp h
    simp [UserHandler.GetUser, hp, h]
  · intro hp h
    simp [UserHandler.UpdateUser, hp, h]
  · intro hp h
    simp [UserHandler.DeleteUser, hp, h]

/-- C6 witness: the statement evaluated on concrete requests — the
unparseable id "abc" is a 400 with untouched state, a create with decoded
body is a 201 carrying the assigned id, a get of the created record is a
200, and its delete is a 204. -/
theorem C6_handler_badrequest_and_success_witness :
    UserHandler.GetUser initialDb "abc" =
      (HttpResponse.badRequest "Invalid ID", initialDb) ∧
    UserHandler.CreateUser initialDb none =
      (HttpResponse.badRequest "Invalid input", initialDb) ∧
    UserHandler.CreateUser initialDb (some ⟨7, "A", "a@x"⟩) =
      (HttpResponse.created ⟨1, "A", "a@x"⟩, ⟨[(1, "A", "a@x")], 2, true⟩) ∧
    UserHandler.GetUser ⟨[(1, "A", "a@x")], 2, true⟩ "1" =
      (HttpResponse.ok ⟨1, "A", "a@x"⟩, ⟨[(1, "A", "a@x")], 2, true⟩) ∧
    UserHandler.DeleteUser ⟨[(1, "A", "a@x")], 2, true⟩ "1" =
      (HttpResponse.noContent, ⟨[], 2, true⟩) :=
  ⟨((C6_handler_badrequest_and_success initialDb initialDb "abc" 0
      ⟨0, "", ""⟩ ⟨0, "", ""⟩ ⟨0, "", ""⟩).1 rfl).1,
   (C6_handler_badrequest_and_success initialDb initialDb "x" 0
      ⟨0, "", ""⟩ ⟨0, "", ""⟩ ⟨0, "", ""⟩).2.1,
   (C6_handler_badrequest_and_success initialDb ⟨[(1, "A", "a@x")], 2, true⟩
      "x" 0 ⟨7, "A", "a@x"⟩ ⟨0, "", ""⟩ ⟨1, "A", "a@x"⟩).2.2.2.1 rfl,
   (C6_handler_badrequest_and_success ⟨[(1, "A", "a@x")], 2, true⟩
      ⟨[(1, "A", "a@x")], 2, true⟩ "1" 1 ⟨0, "", ""⟩ ⟨1, "A", "a@x"⟩
      ⟨0, "", ""⟩).2.2.2.2.1 rfl rfl,
   (C6_handler_badrequest_and_success ⟨[(1, "A", "a@x")], 2, true⟩
      ⟨[], 2, true⟩ "1" 1 ⟨0, "", ""⟩ ⟨0, "", ""⟩
      ⟨0, "", ""⟩).2.2.2.2.2.2 rfl rfl⟩

/-- C7: the strategy call sites delegate unconditionally — for every
discount strategy and price, `CalculateFinalPrice` returns exactly the
strategy's `Calculate` result, and for every speaker, `DescribeAnimal`
outputs the line built from the speaker's `Speak()` string; the concrete
strategies of the repository each produce their policy-specific output at
the unchanged call sites. -/
theorem C7_policy_substitutability :
    (∀ (d : DiscountCalculator) (p : ℚ), CalculateFinalPrice p d = d.Calculate p) ∧
    (∀ sp : Speaker, DescribeAnimal sp = "The animal says: " ++ sp.Speak) ∧
    CalculateFinalPrice 100 RegularCustomerDiscount = 100 ∧
    CalculateFinalPrice 100 LoyalCustomerDiscount = 90 ∧
    CalculateFinalPrice 100 VIPCustomerDiscount = 80 ∧
    CalculateFinalPrice 100 NewCustomerDiscount = 95 ∧
    DescribeAnimal Dog = "The animal says: Woof!" ∧
    DescribeAnimal Cat = "The animal says: Meow!" ∧
    DescribeAnimal Parrot = "The animal says: Squawk!" := by
  refine ⟨fun d p => rfl, fun sp => rfl, ?_, ?_, ?_, ?_, rfl, rfl, rfl⟩ <;>
    norm_num [CalculateFinalPrice, RegularCustomerDiscount,
      LoyalCustomerDiscount, VIPCustomerDiscount, NewCustomerDiscount]

/-- C8: on create the payload's id field is ignored — two create requests
whose decoded bodies differ only in the id field produce identical
handler results (same response, same created record, same store state),
so the store-assigned identifier never depends on the payload's id. -/
theorem C8_create_ignores_payload_id (s : DbState) (i1 i2 : Int)
    (n e : String) :
    UserHandler.CreateUser s (some ⟨i1, n, e⟩) =
      UserHandler.CreateUser s (some ⟨i2, n, e⟩) :=
  rfl

/-- C9: on update the identifier comes solely from the query-string id
parameter — two update requests to the same parsed identifier whose
bodies differ only in the id field produce identical results, and any
record returned on success carries the query-parameter identifier. -/
theorem C9_update_id_from_query_only (s : DbState) (p : String)
    (i i1 i2 : Int) (n e : String) (u : User) (s1 : DbState)
    (hp : atoi p = some i) :
    UserHandler.UpdateUser s p (some ⟨i1, n, e⟩) =
      UserHandler.UpdateUser s p (some ⟨i2, n, e⟩) ∧
    (UserHandler.UpdateUser s p (some ⟨i1, n, e⟩) = (HttpResponse.ok u, s1) →
      u.id = i) := by
  constructor
  · rfl
  · intro h
    simp only [UserHandler.UpdateUser, hp] at h
    rcases hsvc : UserService.UpdateUser s i n e with ⟨r, s2⟩
    rw [hsvc] at h
    cases r with
    | error err => simp at h
    | ok v =>
      simp at h
      have hvid := update_ok_id s i ⟨0, n, e⟩ v s2 hsvc
      rw [← h.1]
      exact hvid

/-- C9 witness: two concrete update requests to id 1 whose bodies carry
ids 5 and 9 coincide, and the success record carries the query id 1. -/
theorem C9_update_id_from_query_only_witness :
    UserHandler.UpdateUser ⟨[(1, "A", "a@x")], 2, true⟩ "1"
        (some ⟨5, "B", "b@x"⟩) =
      UserHandler.UpdateUser ⟨[(1, "A", "a@x")], 2, true⟩ "1"
        (some ⟨9, "B", "b@x"⟩) ∧
    (User.mk 1 "B" "b@x").id = 1 :=
  ⟨(C9_update_id_from_query_only ⟨[(1, "A", "a@x")], 2, true⟩ "1" 1 5 9
      "B" "b@x" ⟨1, "B", "b@x"⟩ ⟨[(1, "B", "b@x")], 2, true⟩ rfl).1,
   (C9_update_id_from_query_only ⟨[(1, "A", "a@x")], 2, true⟩ "1" 1 5 9
      "B" "b@x" ⟨1, "B", "b@x"⟩ ⟨[(1, "B", "b@x")], 2, true⟩ rfl).2 rfl⟩

/-- C10: both notifier implementations return a nil error on every
message, so `NotificationService.Notify` always takes its success branch:
its output is the notifier's send line followed by "Notification sent
successfully!", and the "Failed to send notification" branch is
unreachable with the implementations in this repository. -/
theorem C10_notifier_failure_unreachable (m : String) :
    (EmailNotifier.Send m).2 = none ∧
    (SMSNotifier.Send m).2 = none ∧
    NotificationService.Notify (NewNotificationService EmailNotifier) m =
      ["Sending email with message: " ++ m, "Notification sent successfully!"] ∧
    NotificationService.Notify (NewNotificationService SMSNotifier) m =
      ["Sending SMS with message: " ++ m, "Notification sent successfully!"] :=
  ⟨rfl, rfl, rfl, rfl⟩
